import Mathlib

/-!
Verification of the group-clusters resource client (`group_clusters.go`).

The module under study is a typed REST binding: five operations
(ListClusters, GetCluster, AddCluster, EditCluster, DeleteCluster) that
compose an identifier resolver, a request builder and a dispatcher.  The
embedding below models:

* the JSON values exchanged on the wire (`Json`),
* the identifier resolver `parseID` and the path escaper `pathEscape`
  (both live outside this module in the wider repository, so they are
  modelled from the spec),
* the data shapes `GroupCluster`, `GroupPlatformKubernetes`, the embedded
  `User` and `Group` references, and the Add/Edit option structures with
  their `omitempty` JSON serialization,
* the five operations as pure functions of an abstract `Server`
  (the HTTP transport), each returning the trace of dispatched requests
  together with the Go result triple.
-/

namespace GitLab

/-- A JSON value.  Numbers are modelled as integers, which covers every
field exchanged by this module (ids and status-like fields). -/
inductive Json where
  | null : Json
  | bool : Bool → Json
  | num : Int → Json
  | str : String → Json
  | arr : List Json → Json
  | obj : List (String × Json) → Json

/-- Decimal digit characters of a natural number, most significant first;
`fuel` bounds the recursion depth (structural recursion so that the
function evaluates inside the kernel). -/
def natDecCharsAux : Nat → Nat → List Char
  | 0, _ => []
  | fuel + 1, n =>
    if n < 10 then [Char.ofNat (48 + n)]
    else natDecCharsAux fuel (n / 10) ++ [Char.ofNat (48 + n % 10)]

/-- Decimal digit characters of a natural number. -/
def natDecChars (n : Nat) : List Char :=
  natDecCharsAux (n + 1) n

/-- The characters of the decimal rendering of an integer, as produced by
the `%d` verb of the formatting library. -/
def intDecChars (n : Int) : List Char :=
  if n < 0 then '-' :: natDecChars n.natAbs else natDecChars n.natAbs

/-- Decimal rendering of an integer (the `%d` format verb). -/
def intDec (n : Int) : String :=
  String.mk (intDecChars n)

/-- Uppercase hexadecimal digit for `n < 16`. -/
def hexDigit (n : Nat) : Char :=
  if n < 10 then Char.ofNat (48 + n) else Char.ofNat (55 + n)

/-- The UTF-8 encoding of a character, as a list of byte values. -/
def utf8Bytes (c : Char) : List Nat :=
  let v := c.toNat
  if v < 0x80 then [v]
  else if v < 0x800 then
    [0xC0 ||| (v >>> 6), 0x80 ||| (v &&& 0x3F)]
  else if v < 0x10000 then
    [0xE0 ||| (v >>> 12), 0x80 ||| ((v >>> 6) &&& 0x3F), 0x80 ||| (v &&& 0x3F)]
  else
    [0xF0 ||| (v >>> 18), 0x80 ||| ((v >>> 12) &&& 0x3F),
     0x80 ||| ((v >>> 6) &&& 0x3F), 0x80 ||| (v &&& 0x3F)]

/-- Characters that survive path-segment percent-escaping unescaped:
the RFC 3986 unreserved characters and sub-delims legal in a segment. -/
def isPathSegmentSafe (c : Char) : Bool :=
  c.isAlphanum || c == '-' || c == '.' || c == '_' || c == '~' ||
    c == '!' || c == '$' || c == '&' || c == '\'' || c == '(' || c == ')' ||
    c == '*' || c == '+' || c == ',' || c == ';' || c == '=' ||
    c == ':' || c == '@'

/-- Percent-escape one byte: `%HH` with uppercase hex digits. -/
def percentByte (b : Nat) : List Char :=
  ['%', hexDigit (b / 16), hexDigit (b % 16)]

/-- Escape a single character for use inside a path segment. -/
def escapeChar (c : Char) : List Char :=
  if isPathSegmentSafe c then [c] else (utf8Bytes c).flatMap percentByte

/-- Escape a list of characters for use inside a path segment. -/
def escapeChars : List Char → List Char
  | [] => []
  | c :: cs => escapeChar c ++ escapeChars cs

/-- Modelled from the spec: `pathEscape` (defined outside this module, in
the wider repository) percent-escapes a string so it can be placed in a
URL path segment. -/
def pathEscape (s : String) : String :=
  String.mk (escapeChars s.data)

/-- A dynamically typed group identifier, as accepted by the Go
`interface\x7b\x7d` parameter: an integer, a string, or a value of any
other type. -/
inductive GoValue where
  | int : Int → GoValue
  | str : String → GoValue
  | other : GoValue

/-- The error taxonomy visible to this module's callers. -/
inductive ClientError where
  | invalidIdentifier : ClientError
  | httpError : Nat → ClientError
  | transportError : String → ClientError

/-- Modelled from the spec: the identifier resolver (`parseID`, declared
outside this module in the wider repository) accepts an integer or a
non-empty string group identifier and renders it as a path segment
string; a value of any other type, or an empty string, fails with an
`InvalidIdentifier` error detected locally. -/
def parseID : GoValue → Except ClientError String
  | .int n => .ok (intDec n)
  | .str s => if s = "" then .error .invalidIdentifier else .ok s
  | .other => .error .invalidIdentifier

/-- Modelled from the spec: the embedded reference to the creating/owning
user (id, name, username, state, avatar URL, profile URL); the `User`
struct is declared outside this module. -/
structure User where
  id : Int
  name : String
  username : String
  state : String
  avatarURL : String
  webURL : String

/-- Modelled from the spec: the embedded reference to the owning group
(id, name, URL); the `Group` struct is declared outside this module. -/
structure Group where
  id : Int
  name : String
  webURL : String

/-- `GroupPlatformKubernetes` (group_clusters.go lines 190-195):
the kubernetes platform connection embedded in a cluster. -/
structure GroupPlatformKubernetes where
  apiURL : String
  token : String
  caCert : String
  authorizationType : String

/-- `GroupCluster` (group_clusters.go lines 175-187).  The Go field
`CreatedAt *time.Time` is modelled as the optional raw RFC3339 string;
time-string parsing itself belongs to the external standard library. -/
structure GroupCluster where
  id : Int
  name : String
  domain : String
  createdAt : Option String
  providerType : String
  platformType : String
  environmentScope : String
  clusterType : String
  user : Option User
  platformKubernetes : Option GroupPlatformKubernetes
  group : Option Group

/-- The zero value of `User`. -/
def zeroUser : User := ⟨0, "", "", "", "", ""⟩

/-- The zero value of `Group`. -/
def zeroGroup : Group := ⟨0, "", ""⟩

/-- The zero value of `GroupPlatformKubernetes`. -/
def zeroGPK : GroupPlatformKubernetes := ⟨"", "", "", ""⟩

/-- The zero value of `GroupCluster`. -/
def zeroGC : GroupCluster :=
  ⟨0, "", "", none, "", "", "", "", none, none, none⟩

/-!
JSON decoding, following the semantics of the external `encoding/json`
collaborator when unmarshalling into these struct shapes: object keys are
matched against field tags, unknown keys are ignored, a JSON `null` leaves
a plain field unchanged and sets a pointer field to nil, and a value of
the wrong type is an error.
-/

/-- Decode a JSON value into a string field currently holding `cur`. -/
def decodeString (cur : String) : Json → Except String String
  | .null => .ok cur
  | .str s => .ok s
  | _ => .error "cannot unmarshal into string"

/-- Decode a JSON value into an integer field currently holding `cur`. -/
def decodeInt (cur : Int) : Json → Except String Int
  | .null => .ok cur
  | .num n => .ok n
  | _ => .error "cannot unmarshal into int"

/-- Decode a JSON value into an optional timestamp field (a pointer to a
time value in the source); only a string or null is accepted. -/
def decodeTimeOpt (_cur : Option String) : Json → Except String (Option String)
  | .null => .ok none
  | .str s => .ok (some s)
  | _ => .error "cannot unmarshal into time"

/-- Decode a JSON value into a pointer-to-struct field: null sets the
pointer to nil, otherwise the value is decoded into the pointed-to struct
(allocated at its zero value when the pointer was nil). -/
def decodePtr (dec : α → Json → Except String α) (zero : α)
    (cur : Option α) : Json → Except String (Option α)
  | .null => .ok none
  | j => (dec (cur.getD zero) j).map some

/-- Apply one JSON object entry to a `User` value; entries are matched by
field tag and unknown keys are ignored. -/
def updateUser (u : User) (kv : String × Json) : Except String User :=
  if kv.1 = "id" then (decodeInt u.id kv.2).map fun x => { u with id := x }
  else if kv.1 = "name" then (decodeString u.name kv.2).map fun x => { u with name := x }
  else if kv.1 = "username" then
    (decodeString u.username kv.2).map fun x => { u with username := x }
  else if kv.1 = "state" then
    (decodeString u.state kv.2).map fun x => { u with state := x }
  else if kv.1 = "avatar_url" then
    (decodeString u.avatarURL kv.2).map fun x => { u with avatarURL := x }
  else if kv.1 = "web_url" then
    (decodeString u.webURL kv.2).map fun x => { u with webURL := x }
  else .ok u

/-- Decode a JSON value into a `User` starting from `u`. -/
def decodeUserFrom (u : User) : Json → Except String User
  | .obj fs => fs.foldlM updateUser u
  | .null => .ok u
  | _ => .error "cannot unmarshal into User"

/-- Apply one JSON object entry to a `Group` value. -/
def updateGroup (g : Group) (kv : String × Json) : Except String Group :=
  if kv.1 = "id" then (decodeInt g.id kv.2).map fun x => { g with id := x }
  else if kv.1 = "name" then (decodeString g.name kv.2).map fun x => { g with name := x }
  else if kv.1 = "web_url" then
    (decodeString g.webURL kv.2).map fun x => { g with webURL := x }
  else .ok g

/-- Decode a JSON value into a `Group` starting from `g`. -/
def decodeGroupFrom (g : Group) : Json → Except String Group
  | .obj fs => fs.foldlM updateGroup g
  | .null => .ok g
  | _ => .error "cannot unmarshal into Group"

/-- Apply one JSON object entry to a `GroupPlatformKubernetes` value. -/
def updateGPK (k : GroupPlatformKubernetes) (kv : String × Json) :
    Except String GroupPlatformKubernetes :=
  if kv.1 = "api_url" then (decodeString k.apiURL kv.2).map fun x => { k with apiURL := x }
  else if kv.1 = "token" then (decodeString k.token kv.2).map fun x => { k with token := x }
  else if kv.1 = "ca_cert" then
    (decodeString k.caCert kv.2).map fun x => { k with caCert := x }
  else if kv.1 = "authorization_type" then
    (decodeString k.authorizationType kv.2).map fun x => { k with authorizationType := x }
  else .ok k

/-- Decode a JSON value into a `GroupPlatformKubernetes` starting from `k`. -/
def decodeGPKFrom (k : GroupPlatformKubernetes) :
    Json → Except String GroupPlatformKubernetes
  | .obj fs => fs.foldlM updateGPK k
  | .null => .ok k
  | _ => .error "cannot unmarshal into GroupPlatformKubernetes"

/-- Apply one JSON object entry to a `GroupCluster` value; the keys are
the `json:` tags of group_clusters.go lines 176-186. -/
def updateGC (c : GroupCluster) (kv : String × Json) : Except String GroupCluster :=
  if kv.1 = "id" then (decodeInt c.id kv.2).map fun x => { c with id := x }
  else if kv.1 = "name" then (decodeString c.name kv.2).map fun x => { c with name := x }
  else if kv.1 = "domain" then
    (decodeString c.domain kv.2).map fun x => { c with domain := x }
  else if kv.1 = "created_at" then
    (decodeTimeOpt c.createdAt kv.2).map fun x => { c with createdAt := x }
  else if kv.1 = "provider_type" then
    (decodeString c.providerType kv.2).map fun x => { c with providerType := x }
  else if kv.1 = "platform_type" then
    (decodeString c.platformType kv.2).map fun x => { c with platformType := x }
  else if kv.1 = "environment_scope" then
    (decodeString c.environmentScope kv.2).map fun x => { c with environmentScope := x }
  else if kv.1 = "cluster_type" then
    (decodeString c.clusterType kv.2).map fun x => { c with clusterType := x }
  else if kv.1 = "user" then
    (decodePtr decodeUserFrom zeroUser c.user kv.2).map fun x => { c with user := x }
  else if kv.1 = "platform_kubernetes" then
    (decodePtr decodeGPKFrom zeroGPK c.platformKubernetes kv.2).map
      fun x => { c with platformKubernetes := x }
  else if kv.1 = "group" then
    (decodePtr decodeGroupFrom zeroGroup c.group kv.2).map fun x => { c with group := x }
  else .ok c

/-- Decode a JSON value into a `GroupCluster` starting from `c`. -/
def decodeGCFrom (c : GroupCluster) : Json → Except String GroupCluster
  | .obj fs => fs.foldlM updateGC c
  | .null => .ok c
  | _ => .error "cannot unmarshal into GroupCluster"

/-- Decode a JSON value into a cluster pointer (nil when the JSON is
null), as `GetCluster` does through its `&pc` double pointer. -/
def decodeGCPtr : Json → Except String (Option GroupCluster) :=
  decodePtr decodeGCFrom zeroGC none

/-- Decode each element of a JSON list in order, failing on the first
element that fails. -/
def decodeList (dec : Json → Except String α) : List Json → Except String (List α)
  | [] => .ok []
  | j :: js =>
    match dec j with
    | .error e => .error e
    | .ok v =>
      match decodeList dec js with
      | .error e => .error e
      | .ok vs => .ok (v :: vs)

/-- Decode a JSON value into a slice of cluster pointers, as
`ListClusters` does through `&pcs`; null decodes to the nil slice. -/
def decodeGCList : Json → Except String (List (Option GroupCluster))
  | .arr xs => decodeList decodeGCPtr xs
  | .null => .ok []
  | _ => .error "cannot unmarshal into slice of GroupCluster"

/-!
Option structures and their JSON serialization.  Every field is a pointer
with an `omitempty` tag, so a nil field is omitted from the marshalled
object entirely and a set field appears under its tag, in declaration
order.
-/

/-- `AddGroupPlatformKubernetesOptions` (group_clusters.go lines 265-270). -/
structure AddGroupPlatformKubernetesOptions where
  apiURL : Option String
  token : Option String
  caCert : Option String
  authorizationType : Option String

/-- `AddGroupClusterOptions` (group_clusters.go lines 255-262). -/
structure AddGroupClusterOptions where
  name : Option String
  domain : Option String
  enabled : Option Bool
  managed : Option Bool
  environmentScope : Option String
  platformKubernetes : Option AddGroupPlatformKubernetesOptions

/-- `EditGroupPlatformKubernetesOptions` (group_clusters.go lines
309-313): the platform connection fields available when editing. -/
structure EditGroupPlatformKubernetesOptions where
  apiURL : Option String
  token : Option String
  caCert : Option String

/-- `EditGroupClusterOptions` (group_clusters.go lines 301-306). -/
structure EditGroupClusterOptions where
  name : Option String
  domain : Option String
  environmentScope : Option String
  platformKubernetes : Option EditGroupPlatformKubernetesOptions

/-- One `omitempty` field: nothing when unset, the tagged entry when set. -/
def optPair (k : String) : Option Json → List (String × Json)
  | none => []
  | some j => [(k, j)]

/-- The marshalled object entries of `AddGroupPlatformKubernetesOptions`. -/
def addGPKFields (o : AddGroupPlatformKubernetesOptions) : List (String × Json) :=
  optPair "api_url" (o.apiURL.map .str) ++
  optPair "token" (o.token.map .str) ++
  optPair "ca_cert" (o.caCert.map .str) ++
  optPair "authorization_type" (o.authorizationType.map .str)

/-- JSON serialization of `AddGroupPlatformKubernetesOptions`. -/
def marshalAddGPK (o : AddGroupPlatformKubernetesOptions) : Json :=
  .obj (addGPKFields o)

/-- The marshalled object entries of `AddGroupClusterOptions`. -/
def addClusterFields (o : AddGroupClusterOptions) : List (String × Json) :=
  optPair "name" (o.name.map .str) ++
  optPair "domain" (o.domain.map .str) ++
  optPair "enabled" (o.enabled.map .bool) ++
  optPair "managed" (o.managed.map .bool) ++
  optPair "environment_scope" (o.environmentScope.map .str) ++
  optPair "platform_kubernetes_attributes" (o.platformKubernetes.map marshalAddGPK)

/-- JSON serialization of `AddGroupClusterOptions`. -/
def marshalAddGroupClusterOptions (o : AddGroupClusterOptions) : Json :=
  .obj (addClusterFields o)

/-- The marshalled object entries of `EditGroupPlatformKubernetesOptions`. -/
def editGPKFields (o : EditGroupPlatformKubernetesOptions) : List (String × Json) :=
  optPair "api_url" (o.apiURL.map .str) ++
  optPair "token" (o.token.map .str) ++
  optPair "ca_cert" (o.caCert.map .str)

/-- JSON serialization of `EditGroupPlatformKubernetesOptions`. -/
def marshalEditGPK (o : EditGroupPlatformKubernetesOptions) : Json :=
  .obj (editGPKFields o)

/-- The marshalled object entries of `EditGroupClusterOptions`. -/
def editClusterFields (o : EditGroupClusterOptions) : List (String × Json) :=
  optPair "name" (o.name.map .str) ++
  optPair "domain" (o.domain.map .str) ++
  optPair "environment_scope" (o.environmentScope.map .str) ++
  optPair "platform_kubernetes_attributes" (o.platformKubernetes.map marshalEditGPK)

/-- JSON serialization of `EditGroupClusterOptions`. -/
def marshalEditGroupClusterOptions (o : EditGroupClusterOptions) : Json :=
  .obj (editClusterFields o)

/-!
The HTTP layer.  Requests carry the method, the path relative to the
`api/v4` base, and the serialized body; responses carry the status code
and the body parsed as JSON (`none` for an empty or unparseable body).
The transport is an abstract function from requests to responses, and
each operation records the trace of requests it dispatched.
-/

/-- An HTTP request as built by this module: method, path relative to the
base URL, optional JSON body. -/
structure Request where
  method : String
  path : String
  body : Option Json

/-- An HTTP response: status code, and the body parsed as JSON (`none`
when the body is empty or not JSON). -/
structure HTTPResponse where
  statusCode : Nat
  body : Option Json

/-- The abstract transport: what the server answers to each request. -/
def Server : Type := Request → HTTPResponse

/-- Modelled from the spec: the dispatcher treats a 2xx status code as
success and derives an `HTTPError` from any other status. -/
def is2xx (c : Nat) : Bool :=
  decide (200 ≤ c ∧ c ≤ 299)

/-- The observable outcome of one typed operation: the trace of requests
dispatched, and the Go `(result, response, error)` triple, with nil
pointers as `none`. -/
structure CallResult (α : Type) where
  trace : List Request
  result : Option α
  response : Option HTTPResponse
  error : Option ClientError

/-- The observable outcome of `DeleteCluster`, which has no typed result. -/
structure DeleteResult where
  trace : List Request
  response : Option HTTPResponse
  error : Option ClientError

/-- Modelled from the spec: the shared dispatcher (`client.Do` in the
wider repository).  It performs the round trip, surfaces a non-2xx status
as an error alongside the raw response, and on success decodes the JSON
body into the target value; a missing or undecodable body is a transport
error. -/
def dispatch (server : Server) (req : Request)
    (dec : Json → Except String α) : CallResult α :=
  let resp := server req
  if is2xx resp.statusCode then
    match resp.body with
    | none => ⟨[req], none, some resp, some (.transportError "EOF")⟩
    | some j =>
      match dec j with
      | .ok v => ⟨[req], some v, some resp, none⟩
      | .error m => ⟨[req], none, some resp, some (.transportError m)⟩
  else ⟨[req], none, some resp, some (.httpError resp.statusCode)⟩

/-- The request built by `ListClusters` (group_clusters.go lines 210-212). -/
def listClustersRequest (group : String) : Request :=
  ⟨"GET", "groups/" ++ pathEscape group ++ "/clusters", none⟩

/-- The request built by `GetCluster` (group_clusters.go lines 235-237). -/
def getClusterRequest (group : String) (cluster : Int) : Request :=
  ⟨"GET", "groups/" ++ pathEscape group ++ "/clusters/" ++ intDec cluster, none⟩

/-- The request built by `AddCluster` (group_clusters.go lines 281-283). -/
def addClusterRequest (group : String) (opt : Option AddGroupClusterOptions) : Request :=
  ⟨"POST", "groups/" ++ pathEscape group ++ "/clusters/user",
    opt.map marshalAddGroupClusterOptions⟩

/-- The request built by `EditCluster` (group_clusters.go lines 324-326). -/
def editClusterRequest (group : String) (cluster : Int)
    (opt : Option EditGroupClusterOptions) : Request :=
  ⟨"PUT", "groups/" ++ pathEscape group ++ "/clusters/" ++ intDec cluster,
    opt.map marshalEditGroupClusterOptions⟩

/-- The request built by `DeleteCluster` (group_clusters.go lines 349-351). -/
def deleteClusterRequest (group : String) (cluster : Int) : Request :=
  ⟨"DELETE", "groups/" ++ pathEscape group ++ "/clusters/" ++ intDec cluster, none⟩

/-- `ListClusters` (group_clusters.go lines 205-224): GET
groups/\x7bgroup\x7d/clusters, decoding the body into a slice of cluster
pointers. -/
def ListClusters (server : Server) (gid : GoValue) :
    CallResult (List (Option GroupCluster)) :=
  match parseID gid with
  | .error e => ⟨[], none, none, some e⟩
  | .ok group => dispatch server (listClustersRequest group) decodeGCList

/-- `GetCluster` (group_clusters.go lines 230-249): GET
groups/\x7bgroup\x7d/clusters/\x7bid\x7d, decoding the body through a
pointer to the cluster pointer (`&pc`), so a null body yields a nil
cluster. -/
def GetCluster (server : Server) (gid : GoValue) (cluster : Int) :
    CallResult (Option GroupCluster) :=
  match parseID gid with
  | .error e => ⟨[], none, none, some e⟩
  | .ok group => dispatch server (getClusterRequest group cluster) decodeGCPtr

/-- `AddCluster` (group_clusters.go lines 276-295): POST
groups/\x7bgroup\x7d/clusters/user with the serialized options as body,
decoding the response into a freshly allocated cluster. -/
def AddCluster (server : Server) (gid : GoValue)
    (opt : Option AddGroupClusterOptions) : CallResult GroupCluster :=
  match parseID gid with
  | .error e => ⟨[], none, none, some e⟩
  | .ok group => dispatch server (addClusterRequest group opt) (decodeGCFrom zeroGC)

/-- `EditCluster` (group_clusters.go lines 319-338): PUT
groups/\x7bgroup\x7d/clusters/\x7bid\x7d with the serialized options as
body, decoding the response into a freshly allocated cluster. -/
def EditCluster (server : Server) (gid : GoValue) (cluster : Int)
    (opt : Option EditGroupClusterOptions) : CallResult GroupCluster :=
  match parseID gid with
  | .error e => ⟨[], none, none, some e⟩
  | .ok group =>
    dispatch server (editClusterRequest group cluster opt) (decodeGCFrom zeroGC)

/-- `DeleteCluster` (group_clusters.go lines 344-357): DELETE
groups/\x7bgroup\x7d/clusters/\x7bid\x7d; the dispatcher is called with a
nil target, so the body is never decoded. -/
def DeleteCluster (server : Server) (gid : GoValue) (cluster : Int) :
    DeleteResult :=
  match parseID gid with
  | .error e => ⟨[], none, some e⟩
  | .ok group =>
    let req := deleteClusterRequest group cluster
    let resp := server req
    if is2xx resp.statusCode then ⟨[req], some resp, none⟩
    else ⟨[req], some resp, some (.httpError resp.statusCode)⟩

/-!
Helper lemmas.
-/

/-- Escaping a list of path-safe characters leaves it unchanged. -/
theorem escapeChars_eq_self (l : List Char)
    (h : ∀ c ∈ l, isPathSegmentSafe c = true) : escapeChars l = l := by
  induction l with
  | nil => rfl
  | cons c cs ih =>
    have hc : isPathSegmentSafe c = true := h c (List.mem_cons_self c cs)
    have hcs : escapeChars cs = cs := ih fun x hx => h x (List.mem_cons_of_mem c hx)
    simp [escapeChars, escapeChar, hc, hcs]

/-- Decimal digit characters are path-safe. -/
theorem digitChar_safe (n : Nat) (h : n < 10) :
    isPathSegmentSafe (Char.ofNat (48 + n)) = true := by
  interval_cases n <;> decide

/-- Every character produced by `natDecCharsAux` is path-safe. -/
theorem natDecCharsAux_safe (fuel : Nat) :
    ∀ n, ∀ c ∈ natDecCharsAux fuel n, isPathSegmentSafe c = true := by
  induction fuel with
  | zero => intro n c hc; simp [natDecCharsAux] at hc
  | succ f ih =>
    intro n c hc
    simp only [natDecCharsAux] at hc
    split at hc
    · rename_i hn
      simp only [List.mem_singleton] at hc
      subst hc
      exact digitChar_safe n hn
    · rcases List.mem_append.mp hc with h1 | h2
      · exact ih _ c h1
      · simp only [List.mem_singleton] at h2
        subst h2
        exact digitChar_safe (n % 10) (Nat.mod_lt _ (by omega))

/-- Every character of the decimal rendering of an integer is path-safe. -/
theorem intDecChars_safe (n : Int) :
    ∀ c ∈ intDecChars n, isPathSegmentSafe c = true := by
  intro c hc
  unfold intDecChars at hc
  split at hc
  · rcases List.mem_cons.mp hc with h1 | h2
    · subst h1; decide
    · exact natDecCharsAux_safe _ _ c h2
  · exact natDecCharsAux_safe _ _ c hc

/-- The decimal rendering of an integer passes through `pathEscape`
verbatim. -/
theorem pathEscape_intDec (n : Int) : pathEscape (intDec n) = intDec n := by
  unfold pathEscape intDec
  exact congrArg String.mk (escapeChars_eq_self _ (intDecChars_safe n))

/-- The dispatcher issues exactly the one request it was given. -/
theorem dispatch_trace (server : Server) (req : Request)
    (dec : Json → Except String α) : (dispatch server req dec).trace = [req] := by
  unfold dispatch
  dsimp only
  split
  · split
    · rfl
    · split <;> rfl
  · rfl

/-- After a dispatch, the raw response is always surfaced. -/
theorem dispatch_response (server : Server) (req : Request)
    (dec : Json → Except String α) :
    (dispatch server req dec).response = some (server req) := by
  unfold dispatch
  dsimp only
  split
  · split
    · rfl
    · split <;> rfl
  · rfl

/-- A dispatch that reports an error leaves the result at nil. -/
theorem dispatch_error_result {server : Server} {req : Request}
    {dec : Json → Except String α} {e : ClientError}
    (h : (dispatch server req dec).error = some e) :
    (dispatch server req dec).result = none := by
  revert h
  unfold dispatch
  dsimp only
  split
  · split
    · intro _; rfl
    · split
      · intro h; exact Option.noConfusion h
      · intro _; rfl
  · intro _; rfl

/-- Decoding a JSON list preserves its length. -/
theorem decodeList_length (dec : Json → Except String α) :
    ∀ (xs : List Json) (l : List α), decodeList dec xs = .ok l →
      l.length = xs.length := by
  intro xs
  induction xs with
  | nil =>
    intro l h
    simp only [decodeList] at h
    cases h
    rfl
  | cons j js ih =>
    intro l h
    simp only [decodeList] at h
    split at h
    · cases h
    · split at h
      · cases h
      · rename_i v _ vs hvs
        cases h
        simp [ih vs hvs]

/-- Looking up an `omitempty` field under its own key. -/
theorem lookup_optPair_self (k : String) (v : Option Json)
    (r : List (String × Json)) :
    List.lookup k (optPair k v ++ r) = v.or (List.lookup k r) := by
  cases v with
  | none => simp [optPair, Option.or]
  | some j => simp [optPair, List.lookup, Option.or]

/-- Looking up an `omitempty` field under a different key. -/
theorem lookup_optPair_ne (k q : String) (h : (k == q) = false)
    (v : Option Json) (r : List (String × Json)) :
    List.lookup k (optPair q v ++ r) = List.lookup k r := by
  cases v with
  | none => simp [optPair]
  | some j => simp [optPair, List.lookup, h]

/-- The cluster JSON fixture of the GetCluster test (part_000 lines
72-102), as the parsed JSON value. -/
def fixtureClusterJson : Json :=
  .obj [
    ("id", .num 18),
    ("name", .str "cluster-1"),
    ("domain", .str "example.com"),
    ("created_at", .str "2019-01-02T20:18:12.563Z"),
    ("provider_type", .str "user"),
    ("platform_type", .str "kubernetes"),
    ("environment_scope", .str "*"),
    ("cluster_type", .str "group_type"),
    ("user", .obj [
      ("id", .num 1),
      ("name", .str "Administrator"),
      ("username", .str "root"),
      ("state", .str "active"),
      ("avatar_url", .str "https://www.gravatar.com/avatar/4249f4df72b.."),
      ("web_url", .str "https://gitlab.example.com/root")]),
    ("platform_kubernetes", .obj [
      ("api_url", .str "https://104.197.68.152"),
      ("authorization_type", .str "rbac"),
      ("ca_cert", .str "-----BEGIN CERTIFICATE-----\r\nhFiK1L61owwDQYJKoZIhvcNAQELBQAw\r\nLzEtMCsGA1UEAxMkZDA1YzQ1YjctNzdiMS00NDY0LThjNmEtMTQ0ZDJkZjM4ZDBj\r\nMB4XDTE4MTIyNzIwMDM1MVoXDTIzMTIyNjIxMDM1MVowLzEtMCsGA1UEAxMkZDA1\r\nYzQ1YjctNzdiMS00NDY0LThjNmEtMTQ0ZDJkZjM.......-----END CERTIFICATE-----")]),
    ("group", .obj [
      ("id", .num 26),
      ("name", .str "group-with-clusters-api"),
      ("web_url", .str "https://gitlab.example.com/group-with-clusters-api")])]

/-- Claim C1: for every valid group identifier, the five operations issue
exactly the method and relative path of the wire-protocol table
(GET groups/g/clusters; GET, PUT, DELETE groups/g/clusters/id; POST
groups/g/clusters/user), with the group segment percent-escaped when the
identifier was a path string and passed verbatim (the plain decimal
rendering) when it was numeric. -/
theorem c1_wire_protocol (server : Server) (gid : GoValue) (g : String)
    (cluster : Int) (addOpt : Option AddGroupClusterOptions)
    (editOpt : Option EditGroupClusterOptions)
    (h : parseID gid = .ok g) :
    (ListClusters server gid).trace =
      [⟨"GET", "groups/" ++ pathEscape g ++ "/clusters", none⟩] ∧
    (GetCluster server gid cluster).trace =
      [⟨"GET", "groups/" ++ pathEscape g ++ "/clusters/" ++ intDec cluster, none⟩] ∧
    (AddCluster server gid addOpt).trace =
      [⟨"POST", "groups/" ++ pathEscape g ++ "/clusters/user",
        addOpt.map marshalAddGroupClusterOptions⟩] ∧
    (EditCluster server gid cluster editOpt).trace =
      [⟨"PUT", "groups/" ++ pathEscape g ++ "/clusters/" ++ intDec cluster,
        editOpt.map marshalEditGroupClusterOptions⟩] ∧
    (DeleteCluster server gid cluster).trace =
      [⟨"DELETE", "groups/" ++ pathEscape g ++ "/clusters/" ++ intDec cluster, none⟩] ∧
    (∀ n, gid = .int n → pathEscape g = g) ∧
    (∀ s, gid = .str s → g = s) := by
  refine ⟨?_, ?_, ?_, ?_, ?_, ?_, ?_⟩
  · simp only [ListClusters, h]
    exact dispatch_trace server (listClustersRequest g) decodeGCList
  · simp only [GetCluster, h]
    exact dispatch_trace server (getClusterRequest g cluster) decodeGCPtr
  · simp only [AddCluster, h]
    exact dispatch_trace server (addClusterRequest g addOpt) (decodeGCFrom zeroGC)
  · simp only [EditCluster, h]
    exact dispatch_trace server (editClusterRequest g cluster editOpt) (decodeGCFrom zeroGC)
  · simp only [DeleteCluster, h]
    split <;> rfl
  · intro n hn
    subst hn
    simp only [parseID] at h
    injection h with h'
    rw [← h']
    exact pathEscape_intDec n
  · intro s hs
    subst hs
    simp only [parseID] at h
    split at h
    · exact Except.noConfusion h
    · injection h with h'
      exact h'.symm

/-- Claim C1 witness: at the numeric identifier 1234 the list request is
GET groups/1234/clusters and the segment is passed verbatim. -/
theorem c1_wire_protocol_witness :
    (ListClusters (fun _ => ⟨200, some (Json.arr [])⟩) (GoValue.int 1234)).trace =
      [⟨"GET", "groups/1234/clusters", none⟩] ∧
    pathEscape "1234" = "1234" := by
  have h := c1_wire_protocol (fun _ => ⟨200, some (Json.arr [])⟩)
    (GoValue.int 1234) "1234" 18 none none rfl
  exact ⟨h.1, h.2.2.2.2.2.1 1234 rfl⟩

/-- Claim C3: for every valid group identifier and cluster id,
DeleteCluster against a server answering HTTP 202 with an empty body
returns that response with a nil error; any non-2xx status yields a
non-nil error while the raw response is still returned. -/
theorem c3_delete_status (server : Server) (gid : GoValue) (g : String)
    (cluster : Int) (h : parseID gid = .ok g) :
    (server (deleteClusterRequest g cluster) = ⟨202, none⟩ →
      (DeleteCluster server gid cluster).response = some ⟨202, none⟩ ∧
      (DeleteCluster server gid cluster).error = none) ∧
    (∀ st b, server (deleteClusterRequest g cluster) = ⟨st, b⟩ →
      is2xx st = false →
      (DeleteCluster server gid cluster).response = some ⟨st, b⟩ ∧
      (DeleteCluster server gid cluster).error = some (.httpError st)) := by
  constructor
  · intro hs
    simp [DeleteCluster, h, hs, is2xx]
  · intro st b hs h2
    simp [DeleteCluster, h, hs, h2]

/-- Claim C3 witness: the concrete 202 fixture of TestDeleteGroupCluster. -/
theorem c3_delete_status_witness :
    (DeleteCluster (fun _ => ⟨202, none⟩) (GoValue.int 1234) 1).response =
      some ⟨202, none⟩ ∧
    (DeleteCluster (fun _ => ⟨202, none⟩) (GoValue.int 1234) 1).error = none :=
  (c3_delete_status (fun _ => ⟨202, none⟩) (GoValue.int 1234) "1234" 1 rfl).1 rfl

/-- Claim C4: a group identifier that is neither an integer nor a string,
or is the empty string, makes all five operations fail locally with the
InvalidIdentifier error: nil result, nil response, the error, and an
empty request trace (no network call). -/
theorem c4_invalid_identifier (server : Server) (gid : GoValue)
    (cluster : Int) (addOpt : Option AddGroupClusterOptions)
    (editOpt : Option EditGroupClusterOptions)
    (h : gid = .other ∨ gid = .str "") :
    ListClusters server gid = ⟨[], none, none, some .invalidIdentifier⟩ ∧
    GetCluster server gid cluster = ⟨[], none, none, some .invalidIdentifier⟩ ∧
    AddCluster server gid addOpt = ⟨[], none, none, some .invalidIdentifier⟩ ∧
    EditCluster server gid cluster editOpt =
      ⟨[], none, none, some .invalidIdentifier⟩ ∧
    DeleteCluster server gid cluster = ⟨[], none, some .invalidIdentifier⟩ := by
  rcases h with h | h <;> subst h <;> exact ⟨rfl, rfl, rfl, rfl, rfl⟩

/-- Claim C4 witness: a non-int non-string identifier and the empty
string identifier both fail locally with no request dispatched. -/
theorem c4_invalid_identifier_witness :
    ListClusters (fun _ => ⟨200, none⟩) GoValue.other =
      ⟨[], none, none, some .invalidIdentifier⟩ ∧
    DeleteCluster (fun _ => ⟨200, none⟩) (GoValue.str "") 1 =
      ⟨[], none, some .invalidIdentifier⟩ :=
  ⟨(c4_invalid_identifier (fun _ => ⟨200, none⟩) GoValue.other 1 none none
      (Or.inl rfl)).1,
   (c4_invalid_identifier (fun _ => ⟨200, none⟩) (GoValue.str "") 1 none none
      (Or.inr rfl)).2.2.2.2⟩

/-- Claim C5: for the four typed operations, a failing call leaves the
result at nil, and whenever a request was actually dispatched the raw
response is still returned. -/
theorem c5_failure_triple (server : Server) (gid : GoValue) (cluster : Int)
    (addOpt : Option AddGroupClusterOptions)
    (editOpt : Option EditGroupClusterOptions) :
    (∀ e, (ListClusters server gid).error = some e →
      (ListClusters server gid).result = none) ∧
    ((ListClusters server gid).trace ≠ [] →
      (ListClusters server gid).response.isSome = true) ∧
    (∀ e, (GetCluster server gid cluster).error = some e →
      (GetCluster server gid cluster).result = none) ∧
    ((GetCluster server gid cluster).trace ≠ [] →
      (GetCluster server gid cluster).response.isSome = true) ∧
    (∀ e, (AddCluster server gid addOpt).error = some e →
      (AddCluster server gid addOpt).result = none) ∧
    ((AddCluster server gid addOpt).trace ≠ [] →
      (AddCluster server gid addOpt).response.isSome = true) ∧
    (∀ e, (EditCluster server gid cluster editOpt).error = some e →
      (EditCluster server gid cluster editOpt).result = none) ∧
    ((EditCluster server gid cluster editOpt).trace ≠ [] →
      (EditCluster server gid cluster editOpt).response.isSome = true) := by
  refine ⟨?_, ?_, ?_, ?_, ?_, ?_, ?_, ?_⟩ <;>
    cases hp : parseID gid with
  | error e' =>
    first
    | (intro e he; simp [ListClusters, GetCluster, AddCluster, EditCluster, hp])
    | (intro ht; exact absurd (by simp [ListClusters, GetCluster, AddCluster,
        EditCluster, hp]) ht)
  | ok g =>
    first
    | (intro e he;
       simp only [ListClusters, GetCluster, AddCluster, EditCluster, hp] at he ⊢;
       exact dispatch_error_result he)
    | (intro ht;
       simp only [ListClusters, GetCluster, AddCluster, EditCluster, hp];
       rw [dispatch_response];
       rfl)

/-- Claim C5 witness: a 500 status makes GetCluster fail with a nil
result. -/
theorem c5_failure_triple_witness :
    (GetCluster (fun _ => ⟨500, none⟩) (GoValue.int 1) 2).result = none :=
  (c5_failure_triple (fun _ => ⟨500, none⟩) (GoValue.int 1) 2 none none).2.2.1
    (ClientError.httpError 500) rfl

/-- Claim C6: for every valid group identifier, ListClusters dispatches
exactly one GET to groups/g/clusters; when the server answers 2xx with a
JSON array that decodes, the returned sequence has the same length as the
array, and an empty array yields an empty sequence with a nil error. -/
theorem c6_list_length (server : Server) (gid : GoValue) (g : String)
    (h : parseID gid = .ok g) :
    (ListClusters server gid).trace = [listClustersRequest g] ∧
    (∀ st xs l, server (listClustersRequest g) = ⟨st, some (.arr xs)⟩ →
      is2xx st = true → decodeList decodeGCPtr xs = .ok l →
      (ListClusters server gid).result = some l ∧ l.length = xs.length ∧
      (ListClusters server gid).error = none) ∧
    (∀ st, server (listClustersRequest g) = ⟨st, some (.arr [])⟩ →
      is2xx st = true →
      (ListClusters server gid).result = some [] ∧
      (ListClusters server gid).error = none) := by
  refine ⟨?_, ?_, ?_⟩
  · simp only [ListClusters, h]
    exact dispatch_trace server (listClustersRequest g) decodeGCList
  · intro st xs l hs h2 hdec
    refine ⟨?_, decodeList_length decodeGCPtr xs l hdec, ?_⟩ <;>
      simp [ListClusters, h, dispatch, hs, h2, decodeGCList, hdec]
  · intro st hs h2
    constructor <;>
      simp [ListClusters, h, dispatch, hs, h2, decodeGCList, decodeList]

/-- Claim C6 witness: an empty-array response on a concrete path-string
group yields an empty sequence with no error. -/
theorem c6_list_length_witness :
    (ListClusters (fun _ => ⟨200, some (Json.arr [])⟩)
      (GoValue.str "mygroup")).result = some [] ∧
    (ListClusters (fun _ => ⟨200, some (Json.arr [])⟩)
      (GoValue.str "mygroup")).error = none :=
  (c6_list_length (fun _ => ⟨200, some (Json.arr [])⟩)
    (GoValue.str "mygroup") "mygroup" rfl).2.2 200 rfl rfl

/-- Lookup behaviour of the marshalled `AddGroupClusterOptions` fields:
each tag maps to exactly the field's value, so unset fields are absent. -/
theorem addClusterFields_lookup (o : AddGroupClusterOptions) :
    List.lookup "name" (addClusterFields o) = o.name.map Json.str ∧
    List.lookup "domain" (addClusterFields o) = o.domain.map Json.str ∧
    List.lookup "enabled" (addClusterFields o) = o.enabled.map Json.bool ∧
    List.lookup "managed" (addClusterFields o) = o.managed.map Json.bool ∧
    List.lookup "environment_scope" (addClusterFields o) =
      o.environmentScope.map Json.str ∧
    List.lookup "platform_kubernetes_attributes" (addClusterFields o) =
      o.platformKubernetes.map marshalAddGPK := by
  rcases o with ⟨n, d, e, m, es, pk⟩
  cases n <;> cases d <;> cases e <;> cases m <;> cases es <;> cases pk <;>
    exact ⟨rfl, rfl, rfl, rfl, rfl, rfl⟩

/-- Lookup behaviour of the marshalled
`AddGroupPlatformKubernetesOptions` fields. -/
theorem addGPKFields_lookup (o : AddGroupPlatformKubernetesOptions) :
    List.lookup "api_url" (addGPKFields o) = o.apiURL.map Json.str ∧
    List.lookup "token" (addGPKFields o) = o.token.map Json.str ∧
    List.lookup "ca_cert" (addGPKFields o) = o.caCert.map Json.str ∧
    List.lookup "authorization_type" (addGPKFields o) =
      o.authorizationType.map Json.str := by
  rcases o with ⟨a, t, c, z⟩
  cases a <;> cases t <;> cases c <;> cases z <;> exact ⟨rfl, rfl, rfl, rfl⟩

/-- Lookup behaviour of the marshalled `EditGroupClusterOptions` fields. -/
theorem editClusterFields_lookup (o : EditGroupClusterOptions) :
    List.lookup "name" (editClusterFields o) = o.name.map Json.str ∧
    List.lookup "domain" (editClusterFields o) = o.domain.map Json.str ∧
    List.lookup "environment_scope" (editClusterFields o) =
      o.environmentScope.map Json.str ∧
    List.lookup "platform_kubernetes_attributes" (editClusterFields o) =
      o.platformKubernetes.map marshalEditGPK := by
  rcases o with ⟨n, d, es, pk⟩
  cases n <;> cases d <;> cases es <;> cases pk <;> exact ⟨rfl, rfl, rfl, rfl⟩

/-- Lookup behaviour of the marshalled
`EditGroupPlatformKubernetesOptions` fields. -/
theorem editGPKFields_lookup (o : EditGroupPlatformKubernetesOptions) :
    List.lookup "api_url" (editGPKFields o) = o.apiURL.map Json.str ∧
    List.lookup "token" (editGPKFields o) = o.token.map Json.str ∧
    List.lookup "ca_cert" (editGPKFields o) = o.caCert.map Json.str := by
  rcases o with ⟨a, t, c⟩
  cases a <;> cases t <;> cases c <;> exact ⟨rfl, rfl, rfl⟩

/-- Claim C7: in the serialized Add/Edit option objects every tag maps to
exactly the corresponding field's value, so an unset (nil) field is
omitted entirely from the outgoing JSON and a set field appears with its
value. -/
theorem c7_omitempty_serialization (ao : AddGroupClusterOptions)
    (ap : AddGroupPlatformKubernetesOptions) (eo : EditGroupClusterOptions)
    (ep : EditGroupPlatformKubernetesOptions) :
    (List.lookup "name" (addClusterFields ao) = ao.name.map Json.str ∧
     List.lookup "domain" (addClusterFields ao) = ao.domain.map Json.str ∧
     List.lookup "enabled" (addClusterFields ao) = ao.enabled.map Json.bool ∧
     List.lookup "managed" (addClusterFields ao) = ao.managed.map Json.bool ∧
     List.lookup "environment_scope" (addClusterFields ao) =
       ao.environmentScope.map Json.str ∧
     List.lookup "platform_kubernetes_attributes" (addClusterFields ao) =
       ao.platformKubernetes.map marshalAddGPK) ∧
    (List.lookup "api_url" (addGPKFields ap) = ap.apiURL.map Json.str ∧
     List.lookup "token" (addGPKFields ap) = ap.token.map Json.str ∧
     List.lookup "ca_cert" (addGPKFields ap) = ap.caCert.map Json.str ∧
     List.lookup "authorization_type" (addGPKFields ap) =
       ap.authorizationType.map Json.str) ∧
    (List.lookup "name" (editClusterFields eo) = eo.name.map Json.str ∧
     List.lookup "domain" (editClusterFields eo) = eo.domain.map Json.str ∧
     List.lookup "environment_scope" (editClusterFields eo) =
       eo.environmentScope.map Json.str ∧
     List.lookup "platform_kubernetes_attributes" (editClusterFields eo) =
       eo.platformKubernetes.map marshalEditGPK) ∧
    (List.lookup "api_url" (editGPKFields ep) = ep.apiURL.map Json.str ∧
     List.lookup "token" (editGPKFields ep) = ep.token.map Json.str ∧
     List.lookup "ca_cert" (editGPKFields ep) = ep.caCert.map Json.str) :=
  ⟨addClusterFields_lookup ao, addGPKFields_lookup ap,
   editClusterFields_lookup eo, editGPKFields_lookup ep⟩

/-- Claim C2 counterexample: a token value CAN be supplied in the edit
options and it IS serialized into the outgoing PUT body, refuting the
claim that no access-token value can be supplied in (or serialized from)
the EditCluster options. -/
theorem c2_token_editable_counterexample :
    (EditCluster (fun _ => ⟨200, some .null⟩) (GoValue.int 1234) 24
        (some ⟨none, none, none, some ⟨none, some "secret", none⟩⟩)).trace =
      [⟨"PUT", "groups/1234/clusters/24",
        some (.obj [("platform_kubernetes_attributes",
          .obj [("token", .str "secret")])])⟩] ∧
    List.lookup "token" (editGPKFields ⟨none, some "secret", none⟩) =
      some (.str "secret") := by
  constructor <;> rfl

/-- Claim C2 (amended): the EditCluster options allow adjusting only
name, domain, environment scope, and the platform connection fields
api_url, token and ca_cert (a proper subset of the platform fields:
authorization_type is absent); the access token remains editable, i.e. a
supplied token value is serialized under the "token" tag. -/
theorem c2_edit_fields (o : EditGroupClusterOptions)
    (p : EditGroupPlatformKubernetesOptions) :
    (∀ k j, (k, j) ∈ editClusterFields o →
      k ∈ (["name", "domain", "environment_scope",
            "platform_kubernetes_attributes"] : List String)) ∧
    (∀ k j, (k, j) ∈ editGPKFields p →
      k ∈ (["api_url", "token", "ca_cert"] : List String)) ∧
    (∀ k j, (k, j) ∈ editGPKFields p → k ≠ "authorization_type") ∧
    (∀ t, p.token = some t →
      List.lookup "token" (editGPKFields p) = some (.str t)) := by
  refine ⟨?_, ?_, ?_, ?_⟩
  · intro k j hm
    rcases o with ⟨n, d, es, pk⟩
    cases n <;> cases d <;> cases es <;> cases pk <;>
      simp_all [editClusterFields, optPair] <;>
      casesm* _ ∨ _, _ ∧ _ <;> subst_vars <;> decide
  · intro k j hm
    rcases p with ⟨a, t, c⟩
    cases a <;> cases t <;> cases c <;>
      simp_all [editGPKFields, optPair] <;>
      casesm* _ ∨ _, _ ∧ _ <;> subst_vars <;> decide
  · intro k j hm
    rcases p with ⟨a, t, c⟩
    cases a <;> cases t <;> cases c <;>
      simp_all [editGPKFields, optPair] <;>
      casesm* _ ∨ _, _ ∧ _ <;> subst_vars <;> decide
  · intro t ht
    rcases p with ⟨a, t', c⟩
    simp only at ht
    subst ht
    cases a <;> cases c <;> rfl

/-- Claim C2 (amended) witness: a concrete edit options value whose
token is serialized under the "token" tag. -/
theorem c2_edit_fields_witness :
    List.lookup "token"
      (editGPKFields ⟨some "https://api.example.com", some "tok", none⟩) =
      some (Json.str "tok") :=
  (c2_edit_fields ⟨none, none, none, none⟩
    ⟨some "https://api.example.com", some "tok", none⟩).2.2.2 "tok" rfl

/-- Claim C8: GetCluster(1234, 18) against the fixture JSON yields a
cluster with id 18 and domain "example.com", with a nil error. -/
theorem c8_get_fixture :
    ((GetCluster (fun _ => ⟨200, some fixtureClusterJson⟩)
        (GoValue.int 1234) 18).result.map
      fun pc => pc.map fun c => (c.id, c.domain)) =
      some (some (18, "example.com")) ∧
    (GetCluster (fun _ => ⟨200, some fixtureClusterJson⟩)
      (GoValue.int 1234) 18).error = none := by
  constructor <;> rfl

/-- Claim C9: GetCluster is deterministic in the response to the single
request it issues: two calls whose servers agree on that request (an
unchanged fixture) return structurally equal outcomes, and no state is
kept between calls. -/
theorem c9_get_deterministic (s₁ s₂ : Server) (gid : GoValue) (g : String)
    (cluster : Int) (h : parseID gid = .ok g)
    (hagree : s₁ (getClusterRequest g cluster) = s₂ (getClusterRequest g cluster)) :
    GetCluster s₁ gid cluster = GetCluster s₂ gid cluster := by
  simp only [GetCluster, h]
  unfold dispatch
  rw [hagree]

/-- Claim C9 witness: two different server functions that serve the same
fixture on the issued request produce equal GetCluster outcomes. -/
theorem c9_get_deterministic_witness :
    GetCluster (fun _ => ⟨200, some fixtureClusterJson⟩) (GoValue.int 1234) 18 =
      GetCluster
        (fun r => if r.method = "GET" then ⟨200, some fixtureClusterJson⟩
                  else ⟨404, none⟩)
        (GoValue.int 1234) 18 :=
  c9_get_deterministic _ _ (GoValue.int 1234) "1234" 18 rfl rfl

/-- Inversion of a successful `Except.map`. -/
theorem map_ok_eq {x : Except String α} {f : α → β} {b : β}
    (h : x.map f = .ok b) : ∃ a, x = .ok a ∧ b = f a := by
  cases x with
  | error e => simp [Except.map] at h
  | ok a =>
    simp only [Except.map, Except.ok.injEq] at h
    exact ⟨a, rfl, h.symm⟩

/-- One decode step leaves the domain unchanged unless it assigns a
non-null domain value. -/
theorem updateGC_domain (acc acc' : GroupCluster) (kv : String × Json)
    (hstep : updateGC acc kv = .ok acc')
    (hv : kv.1 = "domain" → kv.2 = .null) : acc'.domain = acc.domain := by
  unfold updateGC at hstep
  by_cases h1 : kv.1 = "id"
  · rw [if_pos h1] at hstep
    obtain ⟨a, ha, hb⟩ := map_ok_eq hstep; subst hb; rfl
  rw [if_neg h1] at hstep
  by_cases h2 : kv.1 = "name"
  · rw [if_pos h2] at hstep
    obtain ⟨a, ha, hb⟩ := map_ok_eq hstep; subst hb; rfl
  rw [if_neg h2] at hstep
  by_cases h3 : kv.1 = "domain"
  · rw [if_pos h3] at hstep
    rw [hv h3] at hstep
    obtain ⟨a, ha, hb⟩ := map_ok_eq hstep
    subst hb
    simp only [decodeString, Except.ok.injEq] at ha
    exact ha.symm
  rw [if_neg h3] at hstep
  by_cases h4 : kv.1 = "created_at"
  · rw [if_pos h4] at hstep
    obtain ⟨a, ha, hb⟩ := map_ok_eq hstep; subst hb; rfl
  rw [if_neg h4] at hstep
  by_cases h5 : kv.1 = "provider_type"
  · rw [if_pos h5] at hstep
    obtain ⟨a, ha, hb⟩ := map_ok_eq hstep; subst hb; rfl
  rw [if_neg h5] at hstep
  by_cases h6 : kv.1 = "platform_type"
  · rw [if_pos h6] at hstep
    obtain ⟨a, ha, hb⟩ := map_ok_eq hstep; subst hb; rfl
  rw [if_neg h6] at hstep
  by_cases h7 : kv.1 = "environment_scope"
  · rw [if_pos h7] at hstep
    obtain ⟨a, ha, hb⟩ := map_ok_eq hstep; subst hb; rfl
  rw [if_neg h7] at hstep
  by_cases h8 : kv.1 = "cluster_type"
  · rw [if_pos h8] at hstep
    obtain ⟨a, ha, hb⟩ := map_ok_eq hstep; subst hb; rfl
  rw [if_neg h8] at hstep
  by_cases h9 : kv.1 = "user"
  · rw [if_pos h9] at hstep
    obtain ⟨a, ha, hb⟩ := map_ok_eq hstep; subst hb; rfl
  rw [if_neg h9] at hstep
  by_cases h10 : kv.1 = "platform_kubernetes"
  · rw [if_pos h10] at hstep
    obtain ⟨a, ha, hb⟩ := map_ok_eq hstep; subst hb; rfl
  rw [if_neg h10] at hstep
  by_cases h11 : kv.1 = "group"
  · rw [if_pos h11] at hstep
    obtain ⟨a, ha, hb⟩ := map_ok_eq hstep; subst hb; rfl
  rw [if_neg h11] at hstep
  injection hstep with h'
  rw [← h']

/-- One decode step leaves the CA certificate unchanged unless it assigns
a non-null ca_cert value. -/
theorem updateGPK_caCert (acc acc' : GroupPlatformKubernetes)
    (kv : String × Json) (hstep : updateGPK acc kv = .ok acc')
    (hv : kv.1 = "ca_cert" → kv.2 = .null) : acc'.caCert = acc.caCert := by
  unfold updateGPK at hstep
  by_cases h1 : kv.1 = "api_url"
  · rw [if_pos h1] at hstep
    obtain ⟨a, ha, hb⟩ := map_ok_eq hstep; subst hb; rfl
  rw [if_neg h1] at hstep
  by_cases h2 : kv.1 = "token"
  · rw [if_pos h2] at hstep
    obtain ⟨a, ha, hb⟩ := map_ok_eq hstep; subst hb; rfl
  rw [if_neg h2] at hstep
  by_cases h3 : kv.1 = "ca_cert"
  · rw [if_pos h3] at hstep
    rw [hv h3] at hstep
    obtain ⟨a, ha, hb⟩ := map_ok_eq hstep
    subst hb
    simp only [decodeString, Except.ok.injEq] at ha
    exact ha.symm
  rw [if_neg h3] at hstep
  by_cases h4 : kv.1 = "authorization_type"
  · rw [if_pos h4] at hstep
    obtain ⟨a, ha, hb⟩ := map_ok_eq hstep; subst hb; rfl
  rw [if_neg h4] at hstep
  injection hstep with h'
  rw [← h']

/-- Folding decode steps over entries whose domain values are all null
leaves the accumulated domain unchanged. -/
theorem foldlM_updateGC_domain :
    ∀ (fs : List (String × Json)) (acc c : GroupCluster),
      List.foldlM updateGC acc fs = .ok c →
      (∀ v, ("domain", v) ∈ fs → v = .null) → c.domain = acc.domain := by
  intro fs
  induction fs with
  | nil =>
    intro acc c h _
    simp only [List.foldlM_nil] at h
    simp only [pure, Except.pure, Except.ok.injEq] at h
    rw [← h]
  | cons kv t ih =>
    intro acc c h hnull
    simp only [List.foldlM_cons] at h
    cases hstep : updateGC acc kv with
    | error e =>
      rw [hstep] at h
      simp [Bind.bind, Except.bind] at h
    | ok acc' =>
      rw [hstep] at h
      simp only [Bind.bind, Except.bind] at h
      have hv : kv.1 = "domain" → kv.2 = .null := by
        intro hk
        apply hnull
        have hkv : ("domain", kv.2) = kv := by rw [← hk]
        rw [hkv]
        exact List.mem_cons_self _ _
      have hd := updateGC_domain acc acc' kv hstep hv
      rw [ih acc' c h fun v' hv' => hnull v' (List.mem_cons_of_mem _ hv'), hd]

/-- Folding decode steps over entries whose ca_cert values are all null
leaves the accumulated CA certificate unchanged. -/
theorem foldlM_updateGPK_caCert :
    ∀ (fs : List (String × Json)) (acc c : GroupPlatformKubernetes),
      List.foldlM updateGPK acc fs = .ok c →
      (∀ v, ("ca_cert", v) ∈ fs → v = .null) → c.caCert = acc.caCert := by
  intro fs
  induction fs with
  | nil =>
    intro acc c h _
    simp only [List.foldlM_nil] at h
    simp only [pure, Except.pure, Except.ok.injEq] at h
    rw [← h]
  | cons kv t ih =>
    intro acc c h hnull
    simp only [List.foldlM_cons] at h
    cases hstep : updateGPK acc kv with
    | error e =>
      rw [hstep] at h
      simp [Bind.bind, Except.bind] at h
    | ok acc' =>
      rw [hstep] at h
      simp only [Bind.bind, Except.bind] at h
      have hv : kv.1 = "ca_cert" → kv.2 = .null := by
        intro hk
        apply hnull
        have hkv : ("ca_cert", kv.2) = kv := by rw [← hk]
        rw [hkv]
        exact List.mem_cons_self _ _
      have hd := updateGPK_caCert acc acc' kv hstep hv
      rw [ih acc' c h fun v' hv' => hnull v' (List.mem_cons_of_mem _ hv'), hd]

/-- Claim C10: `Domain` and the platform connection's `CaCert` are plain
strings: a decoded cluster whose "domain" entries are absent or JSON null
has the empty-string domain, a decoded platform connection whose
"ca_cert" entries are absent or JSON null has the empty-string CA
certificate, and an absent, a null and an explicitly empty field all
decode to the same value, so callers cannot tell them apart. -/
theorem c10_nullable_strings :
    (∀ fs c, decodeGCFrom zeroGC (.obj fs) = .ok c →
      (∀ v, ("domain", v) ∈ fs → v = .null) → c.domain = "") ∧
    (∀ fs k, decodeGPKFrom zeroGPK (.obj fs) = .ok k →
      (∀ v, ("ca_cert", v) ∈ fs → v = .null) → k.caCert = "") ∧
    (decodeGCFrom zeroGC (.obj []) =
       decodeGCFrom zeroGC (.obj [("domain", .null)]) ∧
     decodeGCFrom zeroGC (.obj []) =
       decodeGCFrom zeroGC (.obj [("domain", .str "")]) ∧
     decodeGPKFrom zeroGPK (.obj []) =
       decodeGPKFrom zeroGPK (.obj [("ca_cert", .null)]) ∧
     decodeGPKFrom zeroGPK (.obj []) =
       decodeGPKFrom zeroGPK (.obj [("ca_cert", .str "")])) := by
  refine ⟨?_, ?_, rfl, rfl, rfl, rfl⟩
  · intro fs c h hnull
    simp only [decodeGCFrom] at h
    exact foldlM_updateGC_domain fs zeroGC c h hnull
  · intro fs k h hnull
    simp only [decodeGPKFrom] at h
    exact foldlM_updateGPK_caCert fs zeroGPK k h hnull

/-- Claim C10 witness: a concrete body with a null domain and a concrete
platform connection with a null CA certificate decode to empty strings. -/
theorem c10_nullable_strings_witness :
    ({ zeroGC with name := "cluster-1" } : GroupCluster).domain = "" ∧
    ({ zeroGPK with apiURL := "https://104.197.68.152" } :
      GroupPlatformKubernetes).caCert = "" := by
  constructor
  · refine c10_nullable_strings.1
      [("name", Json.str "cluster-1"), ("domain", Json.null)] _ rfl ?_
    intro v hv
    rcases List.mem_cons.mp hv with h | h
    · injection h with h1 h2
      exact absurd h1 (by decide)
    · injection List.mem_singleton.mp h with h1 h2
  · refine c10_nullable_strings.2.1
      [("api_url", Json.str "https://104.197.68.152"),
       ("ca_cert", Json.null)] _ rfl ?_
    intro v hv
    rcases List.mem_cons.mp hv with h | h
    · injection h with h1 h2
      exact absurd h1 (by decide)
    · injection List.mem_singleton.mp h with h1 h2

end GitLab
